import Mathlib

/-!
# Rental Lifecycle & Pricing Engine — verification development

Shallow embedding of the car-rental back office's core logic:

* `src/schemas/domain/enums.py` — status enumerations;
* `src/core/pricing_calculator.py` — pure pricing functions;
* `src/core/database_manager.py` — document-store queries and updates
  (availability check, extension-conflict check, partial updates);
* `src/services/rental_service.py` — pickup / return / extend orchestration
  and the itemized charge calculation;
* `src/services/reservation_service.py` — reservation update orchestration.

Modelling conventions: calendar dates are whole-day numbers (`Int`),
timestamps are whole seconds (`Int`), monetary amounts and meter readings
are exact rationals (`ℚ`), and statuses are stored as the strings the
document store holds (the Python enums' `.value`).  Store lookups
(`find_one`) are `List.find?` over the collection in insertion order;
inserts append; `update_one` with `$set` maps over the collection and, as
in the source, always refreshes the `updated_at` stamp.  Fallible service
operations return `Except String`, mirroring `raise ValueError`.
-/

namespace CRFMS

/-- `ReservationStatus` from `src/schemas/domain/enums.py`. -/
inductive ReservationStatus
  | pending
  | approved
  | picked_up
  | cancelled
  | completed
  deriving DecidableEq, Repr

/-- The string stored in the database for each status (Python `Enum.value`). -/
def ReservationStatus.value : ReservationStatus → String
  | .pending => "pending"
  | .approved => "approved"
  | .picked_up => "picked_up"
  | .cancelled => "cancelled"
  | .completed => "completed"

/-- Modelled from the spec: `RentalStatus` is imported by the services from
`schemas.domain.enums`, but the enum body is absent from the sources; per the
spec a Rental's status is Active or Completed, stored as
"active"/"completed" (the strings the repository's docstrings use). -/
inductive RentalStatus
  | active
  | completed
  deriving DecidableEq, Repr

/-- Stored string for each rental status. -/
def RentalStatus.value : RentalStatus → String
  | .active => "active"
  | .completed => "completed"

/-- `VehicleStatus` from `src/schemas/domain/enums.py`. -/
inductive VehicleStatus
  | available
  | reserved
  | picked_up
  | out_of_service
  deriving DecidableEq, Repr

/-- Stored string for each vehicle status. -/
def VehicleStatus.value : VehicleStatus → String
  | .available => "available"
  | .reserved => "reserved"
  | .picked_up => "picked_up"
  | .out_of_service => "out_of_service"

/-- Add-on snapshot embedded in a reservation
(`ReservationAddOnDocument`): id, name and per-day price copied at
creation time. -/
structure AddOnSnapshotDoc where
  id : String
  name : String
  price_per_day : ℚ
  deriving DecidableEq, Repr

/-- Embedded invoice document (`InvoiceDocument`). -/
structure InvoiceDoc where
  id : String
  status : String
  issued_date : Int
  total_price : ℚ
  deriving DecidableEq, Repr

/-- Reservation document as persisted (`ReservationDocument`). -/
structure ReservationDoc where
  id : String
  status : String
  customer_id : String
  vehicle_id : String
  insurance_tier_id : String
  pickup_branch_id : String
  return_branch_id : String
  pickup_date : Int
  return_date : Int
  add_ons : List AddOnSnapshotDoc
  total_price : ℚ
  rental_days : Int
  invoice : InvoiceDoc
  created_at : Int
  updated_at : Int
  deriving DecidableEq, Repr

/-- Odometer/fuel/timestamp triple (`RentalReadingDocument`). -/
structure RentalReadingDoc where
  odometer : ℚ
  fuel_level : ℚ
  timestamp : Int
  deriving DecidableEq, Repr

/-- Itemized charges (`RentalChargesDocument`), the five stored fields. -/
structure RentalChargesDoc where
  base_price : ℚ
  late_fee : ℚ
  mileage_overage_fee : ℚ
  fuel_refill_fee : ℚ
  damage_fee : ℚ
  deriving DecidableEq, Repr

/-- The derived `total` property of `RentalChargesDocument`: sum of the
base price and the four fees. -/
def RentalChargesDoc.total (c : RentalChargesDoc) : ℚ :=
  c.base_price + c.late_fee + c.mileage_overage_fee + c.fuel_refill_fee + c.damage_fee

/-- Rental document as persisted (`RentalDocument`). -/
structure RentalDoc where
  id : String
  status : String
  reservation_id : String
  vehicle_id : String
  customer_id : String
  agent_id : String
  pickup_token : String
  pickup_readings : RentalReadingDoc
  return_readings : Option RentalReadingDoc
  charges : Option RentalChargesDoc
  created_at : Int
  updated_at : Int
  deriving DecidableEq, Repr

/-- Vehicle document, restricted to the fields the rental/pricing logic
reads: identity, stored status string, and daily rate. -/
structure VehicleDoc where
  id : String
  status : String
  price_per_day : ℚ
  deriving DecidableEq, Repr

/-- Insurance tier document, restricted to the fields pricing reads. -/
structure InsuranceTierDoc where
  id : String
  price_per_day : ℚ
  deriving DecidableEq, Repr

/-- Add-on catalog document, restricted to the fields pricing reads. -/
structure AddOnDoc where
  id : String
  name : String
  price_per_day : ℚ
  deriving DecidableEq, Repr

/-- The document store: one list per collection, in insertion order.
Employees, customers and branches only ever undergo existence checks in the
embedded operations, so they are kept as lists of identifiers. -/
structure Store where
  reservations : List ReservationDoc
  rentals : List RentalDoc
  vehicles : List VehicleDoc
  employees : List String
  customers : List String
  insurance_tiers : List InsuranceTierDoc
  branches : List String
  add_ons : List AddOnDoc
  deriving DecidableEq, Repr

/-! ## Document-store queries (`src/core/database_manager.py`) -/

/-- `find_rental_by_pickup_token`: first rental whose `pickup_token`
matches. -/
def findRentalByPickupToken (s : Store) (tok : String) : Option RentalDoc :=
  s.rentals.find? (fun r => r.pickup_token == tok)

/-- `find_rental_by_reservation`. -/
def findRentalByReservation (s : Store) (reservation_id : String) : Option RentalDoc :=
  s.rentals.find? (fun r => r.reservation_id == reservation_id)

/-- `find_rental_by_id`. -/
def findRentalById (s : Store) (rental_id : String) : Option RentalDoc :=
  s.rentals.find? (fun r => r.id == rental_id)

/-- `find_reservation_by_id`. -/
def findReservationById (s : Store) (reservation_id : String) : Option ReservationDoc :=
  s.reservations.find? (fun r => r.id == reservation_id)

/-- `find_vehicle_by_id`. -/
def findVehicleById (s : Store) (vehicle_id : String) : Option VehicleDoc :=
  s.vehicles.find? (fun v => v.id == vehicle_id)

/-- `find_employee_by_id`, used only as an existence check. -/
def findEmployeeById (s : Store) (employee_id : String) : Bool :=
  s.employees.contains employee_id

/-- `find_customer_by_id`, used only as an existence check. -/
def findCustomerById (s : Store) (customer_id : String) : Bool :=
  s.customers.contains customer_id

/-- `find_branch_by_id`, used only as an existence check. -/
def findBranchById (s : Store) (branch_id : String) : Bool :=
  s.branches.contains branch_id

/-- `find_insurance_tier_by_id`. -/
def findInsuranceTierById (s : Store) (tier_id : String) : Option InsuranceTierDoc :=
  s.insurance_tiers.find? (fun t => t.id == tier_id)

/-- `find_add_ons_by_ids`: all catalog add-ons whose id is in the list. -/
def findAddOnsByIds (s : Store) (ids : List String) : List AddOnDoc :=
  s.add_ons.filter (fun a => ids.contains a.id)

/-- `find_reservations_by_customer` (the service only uses its length). -/
def findReservationsByCustomer (s : Store) (customer_id : String) : List ReservationDoc :=
  s.reservations.filter (fun r => r.customer_id == customer_id)

/-- One reservation blocks the availability query iff it is for the same
vehicle, its stored status string is `"pending"` or `"confirmed"` (the
literal strings in the query of `check_vehicle_availability`), its inclusive
date interval overlaps the requested one, and it is not the excluded
reservation. -/
def blocksAvailability (vehicle_id : String) (pickup_date return_date : Int)
    (exclude_reservation_id : Option String) (r : ReservationDoc) : Bool :=
  r.vehicle_id == vehicle_id &&
  (r.status == "pending" || r.status == "confirmed") &&
  decide (r.pickup_date ≤ return_date) &&
  decide (r.return_date ≥ pickup_date) &&
  (match exclude_reservation_id with
   | some e => r.id != e
   | none => true)

/-- `check_vehicle_availability`: `True` iff no reservation matches the
overlap query. -/
def checkVehicleAvailability (s : Store) (vehicle_id : String)
    (pickup_date return_date : Int) (exclude_reservation_id : Option String) : Bool :=
  (s.reservations.find?
    (blocksAvailability vehicle_id pickup_date return_date exclude_reservation_id)).isNone

/-- `check_rental_extension_conflict`: `True` iff the extension is possible,
i.e. no reservation for the vehicle with stored status `"pending"`,
`"confirmed"` or `"approved"` overlaps the window
`[current_return_date, new_return_date]`, the current reservation excluded. -/
def checkRentalExtensionConflict (s : Store) (vehicle_id : String)
    (current_return_date new_return_date : Int) (exclude_reservation_id : String) : Bool :=
  (s.reservations.find? (fun r =>
    r.vehicle_id == vehicle_id &&
    (r.status == "pending" || r.status == "confirmed" || r.status == "approved") &&
    decide (r.pickup_date ≤ new_return_date) &&
    decide (r.return_date ≥ current_return_date) &&
    r.id != exclude_reservation_id)).isNone

/-- Partial `$set` payload for `update_reservation`; `none` means the field
is absent from the update document.  `invoice_total_price` models the dotted
key `"invoice.total_price"`. -/
structure ReservationUpdateData where
  status : Option String
  vehicle_id : Option String
  insurance_tier_id : Option String
  pickup_branch_id : Option String
  return_branch_id : Option String
  pickup_date : Option Int
  return_date : Option Int
  total_price : Option ℚ
  rental_days : Option Int
  add_ons : Option (List AddOnSnapshotDoc)
  invoice_total_price : Option ℚ
  deriving DecidableEq, Repr

/-- The empty update document. -/
def ReservationUpdateData.empty : ReservationUpdateData :=
  ⟨none, none, none, none, none, none, none, none, none, none, none⟩

/-- Apply a partial update to one reservation document; as in
`DatabaseManager.update_reservation`, `updated_at` is always refreshed. -/
def applyReservationUpdate (u : ReservationUpdateData) (now : Int)
    (r : ReservationDoc) : ReservationDoc :=
  { r with
    status := u.status.getD r.status
    vehicle_id := u.vehicle_id.getD r.vehicle_id
    insurance_tier_id := u.insurance_tier_id.getD r.insurance_tier_id
    pickup_branch_id := u.pickup_branch_id.getD r.pickup_branch_id
    return_branch_id := u.return_branch_id.getD r.return_branch_id
    pickup_date := u.pickup_date.getD r.pickup_date
    return_date := u.return_date.getD r.return_date
    total_price := u.total_price.getD r.total_price
    rental_days := u.rental_days.getD r.rental_days
    add_ons := u.add_ons.getD r.add_ons
    invoice := { r.invoice with
      total_price := u.invoice_total_price.getD r.invoice.total_price }
    updated_at := now }

/-- `DatabaseManager.update_reservation`: `$set` on the matching document
(observable success iff a document matched; on these call paths the write is
never a no-op because `updated_at` is refreshed). -/
def dbUpdateReservation (s : Store) (reservation_id : String)
    (u : ReservationUpdateData) (now : Int) : Bool × Store :=
  (s.reservations.any (fun r => r.id == reservation_id),
   { s with reservations := s.reservations.map (fun r =>
       if r.id == reservation_id then applyReservationUpdate u now r else r) })

/-- Partial `$set` payload for `update_rental` (the fields `return_vehicle`
writes). -/
structure RentalUpdateData where
  status : Option String
  return_readings : Option RentalReadingDoc
  charges : Option RentalChargesDoc
  deriving DecidableEq, Repr

/-- Apply a partial update to one rental document; `updated_at` is always
refreshed, as in `DatabaseManager.update_rental`. -/
def applyRentalUpdate (u : RentalUpdateData) (now : Int) (r : RentalDoc) : RentalDoc :=
  { r with
    status := u.status.getD r.status
    return_readings := match u.return_readings with
      | some rr => some rr
      | none => r.return_readings
    charges := match u.charges with
      | some c => some c
      | none => r.charges
    updated_at := now }

/-- `DatabaseManager.update_rental`. -/
def dbUpdateRental (s : Store) (rental_id : String)
    (u : RentalUpdateData) (now : Int) : Bool × Store :=
  (s.rentals.any (fun r => r.id == rental_id),
   { s with rentals := s.rentals.map (fun r =>
       if r.id == rental_id then applyRentalUpdate u now r else r) })

/-- `DatabaseManager.create_rental`: insert (appends to the collection). -/
def createRental (s : Store) (r : RentalDoc) : Store :=
  { s with rentals := s.rentals ++ [r] }

/-! ## Pricing calculator (`src/core/pricing_calculator.py`) -/

/-- `PricingStrategyType`. -/
inductive PricingStrategyType
  | daily
  | first_order
  | loyalty
  deriving DecidableEq, Repr

/-- `calculate_rental_days`: plain day difference, no clamping. -/
def calculate_rental_days (pickup_date return_date : Int) : Int :=
  return_date - pickup_date

/-- `calculate_base_price`: `(vehicle + insurance + Σ addons) × days`. -/
def calculate_base_price (vehicle_price_per_day insurance_price_per_day : ℚ)
    (addon_prices_per_day : List ℚ) (rental_days : Int) : ℚ :=
  (vehicle_price_per_day + insurance_price_per_day + addon_prices_per_day.sum)
    * rental_days

/-- `apply_discount`: subtract `base × rate`. -/
def apply_discount (base_price discount_percentage : ℚ) : ℚ :=
  base_price - base_price * discount_percentage

/-- `calculate_total_price`: base price for the dates, then the strategy's
discount (15% for first_order, 10% for loyalty, none for daily). -/
def calculate_total_price (vehicle_price_per_day insurance_price_per_day : ℚ)
    (addon_prices_per_day : List ℚ) (pickup_date return_date : Int)
    (strategy_type : PricingStrategyType) : ℚ :=
  let rental_days := calculate_rental_days pickup_date return_date
  let base_price := calculate_base_price vehicle_price_per_day
    insurance_price_per_day addon_prices_per_day rental_days
  match strategy_type with
  | .first_order => apply_discount base_price (15 / 100)
  | .loyalty => apply_discount base_price (10 / 100)
  | .daily => base_price

/-- `determine_pricing_strategy`: first the zero-count check, then the
every-fifth check, else daily. -/
def determine_pricing_strategy (reservation_count : Nat) : PricingStrategyType :=
  if reservation_count = 0 then .first_order
  else if (reservation_count + 1) % 5 = 0 then .loyalty
  else .daily

/-! ## Charge calculation (`RentalService._calculate_rental_charges`) -/

/-- `LATE_FEE_PER_HOUR` constant. -/
def LATE_FEE_PER_HOUR : ℚ := 10

/-- `DAILY_KM_ALLOWANCE` constant. -/
def DAILY_KM_ALLOWANCE : ℚ := 200

/-- `OVERAGE_PER_KM` constant (0.5). -/
def OVERAGE_PER_KM : ℚ := 1 / 2

/-- `FUEL_REFILL_RATE` constant. -/
def FUEL_REFILL_RATE : ℚ := 50

/-- `GRACE_PERIOD_HOURS` constant. -/
def GRACE_PERIOD_HOURS : Int := 1

/-- The rental-day count used by the charge calculation
(`rental_service.py` lines 544-547): the day difference, bumped to 1 only
when it is exactly 0. -/
def rentalDaysForCharges (pickup_date return_date : Int) : Int :=
  let rental_days := return_date - pickup_date
  if rental_days = 0 then 1 else rental_days

/-- `due_datetime`: pickup timestamp plus `rental_days` whole days
(86400 seconds each). -/
def dueDatetime (pickup_timestamp pickup_date return_date : Int) : Int :=
  pickup_timestamp + rentalDaysForCharges pickup_date return_date * 86400

/-- `grace_end_datetime`: due time plus the one-hour grace period. -/
def graceEndDatetime (pickup_timestamp pickup_date return_date : Int) : Int :=
  dueDatetime pickup_timestamp pickup_date return_date + GRACE_PERIOD_HOURS * 3600

/-- `RentalService._calculate_rental_charges`: late fee (ceil of late hours
past grace, ×10), mileage overage (×0.5 per km over 200/day), fuel refill
(×50 per missing tank fraction, floored at 0), pass-through damage fee, and
the reservation's price as base. -/
def calculateRentalCharges (pickup_readings : RentalReadingDoc)
    (res_pickup_date res_return_date : Int) (base_price : ℚ)
    (return_odometer return_fuel_level : ℚ) (return_timestamp : Int)
    (manual_damage_charge : ℚ) : RentalChargesDoc :=
  let rental_days := rentalDaysForCharges res_pickup_date res_return_date
  let grace_end := graceEndDatetime pickup_readings.timestamp res_pickup_date res_return_date
  let late_fee : ℚ :=
    if grace_end < return_timestamp then
      let late_seconds : Int := return_timestamp - grace_end
      let late_hours : Int := ⌈(late_seconds : ℚ) / 3600⌉
      (late_hours : ℚ) * LATE_FEE_PER_HOUR
    else 0
  let allowed_km : ℚ := (rental_days : ℚ) * DAILY_KM_ALLOWANCE
  let actual_km : ℚ := return_odometer - pickup_readings.odometer
  let overage_km : ℚ := max 0 (actual_km - allowed_km)
  let mileage_overage_fee : ℚ := overage_km * OVERAGE_PER_KM
  let fuel_difference : ℚ := pickup_readings.fuel_level - return_fuel_level
  let fuel_refill_fee : ℚ := max 0 (fuel_difference * FUEL_REFILL_RATE)
  ⟨base_price, late_fee, mileage_overage_fee, fuel_refill_fee, manual_damage_charge⟩

/-! ## Rental service (`src/services/rental_service.py`)

The fresh rental identity (`uuid.uuid4()` in the source) and the clock
reading (`self._clock.now()`) are passed as explicit parameters. -/

/-- `PickupVehicleRequest` (`src/schemas/api/requests/rentals.py`).  Its
validators guarantee `odometer_reading > 0` and `fuel_level ∈ [0, 1]`; note
it has no `vehicle_id` field. -/
structure PickupVehicleRequest where
  reservation_id : String
  agent_id : String
  pickup_token : String
  odometer_reading : ℚ
  fuel_level : ℚ
  pickup_timestamp : Option Int
  deriving DecidableEq, Repr

/-- The rental/message pair `pickup_vehicle` returns (`PickupSuccessData`). -/
structure PickupSuccessData where
  rental : RentalDoc
  message : String
  deriving DecidableEq, Repr

/-- `RentalService.pickup_vehicle`.  Faithful to the source's order:
idempotency check on the pickup token first, then reservation existence and
`approved` status, no prior rental for the reservation, agent existence,
vehicle existence and the maintenance check; then the rental is created and
the reservation's status is set to `completed`.  The source's final
vehicle-status write reads `request.vehicle_id`, a field that does not exist
on `PickupVehicleRequest`; the resulting `AttributeError` is caught by the
surrounding `except` and only logged, so that step never changes the store
and is omitted here. -/
def pickup_vehicle (s : Store) (request : PickupVehicleRequest)
    (rental_id : String) (now : Int) : Except String (PickupSuccessData × Store) :=
  match findRentalByPickupToken s request.pickup_token with
  | some existing_rental =>
      Except.ok (⟨existing_rental, "Vehicle already picked up (idempotent operation)"⟩, s)
  | none =>
    match findReservationById s request.reservation_id with
    | none => Except.error "Reservation not found"
    | some reservation_doc =>
      if reservation_doc.status = ReservationStatus.approved.value then
        match findRentalByReservation s request.reservation_id with
        | some _ => Except.error "Reservation has already been picked up"
        | none =>
          if findEmployeeById s request.agent_id then
            match findVehicleById s reservation_doc.vehicle_id with
            | none => Except.error "Vehicle not found"
            | some vehicle_doc =>
              if vehicle_doc.status = "maintenance_due" then
                Except.error "Vehicle is due for maintenance and cannot be picked up"
              else
                let pickup_timestamp := request.pickup_timestamp.getD now
                let pickup_readings : RentalReadingDoc :=
                  ⟨request.odometer_reading, request.fuel_level, pickup_timestamp⟩
                let rental_doc : RentalDoc :=
                  ⟨rental_id, RentalStatus.active.value, request.reservation_id,
                   reservation_doc.vehicle_id, reservation_doc.customer_id,
                   request.agent_id, request.pickup_token, pickup_readings,
                   none, none, now, now⟩
                let s1 := createRental s rental_doc
                let s2 := (dbUpdateReservation s1 request.reservation_id
                  { ReservationUpdateData.empty with
                      status := some ReservationStatus.completed.value } now).2
                Except.ok (⟨rental_doc, "Vehicle picked up successfully"⟩, s2)
          else Except.error "Agent not found"
      else Except.error "Reservation must be in approved status for pickup"

/-- `ReturnVehicleRequest` (`src/schemas/api/requests/rentals.py`).  Its
validators guarantee `fuel_level ∈ [0, 1]` and `damage_charge ≥ 0`; it has
no `vehicle_id` field. -/
structure ReturnVehicleRequest where
  agent_id : String
  odometer_reading : ℚ
  fuel_level : ℚ
  damage_charge : Option ℚ
  return_timestamp : Option Int
  deriving DecidableEq, Repr

/-- The rental/message pair `return_vehicle` returns (`ReturnSuccessData`). -/
structure ReturnSuccessData where
  rental : RentalDoc
  message : String
  deriving DecidableEq, Repr

/-- `RentalService.return_vehicle`.  Validations in source order: rental
exists and is `active`, agent exists, the associated reservation exists, the
return odometer is not below the pickup odometer; then charges are computed
and the rental is finalized.  As in pickup, the vehicle-status write reads
the non-existent `request.vehicle_id`; the `AttributeError` is caught and
only logged, so the vehicles collection is untouched. -/
def return_vehicle (s : Store) (rental_id : String) (request : ReturnVehicleRequest)
    (now : Int) : Except String (ReturnSuccessData × Store) :=
  match findRentalById s rental_id with
  | none => Except.error "Rental not found"
  | some rental_doc =>
    if rental_doc.status = RentalStatus.active.value then
      if findEmployeeById s request.agent_id then
        match findReservationById s rental_doc.reservation_id with
        | none => Except.error "Associated reservation not found"
        | some reservation_doc =>
          if request.odometer_reading < rental_doc.pickup_readings.odometer then
            Except.error "Return odometer cannot be less than pickup odometer"
          else
            let return_timestamp := request.return_timestamp.getD now
            let charges := calculateRentalCharges rental_doc.pickup_readings
              reservation_doc.pickup_date reservation_doc.return_date
              reservation_doc.total_price request.odometer_reading
              request.fuel_level return_timestamp (request.damage_charge.getD 0)
            let return_readings_doc : RentalReadingDoc :=
              ⟨request.odometer_reading, request.fuel_level, return_timestamp⟩
            let upd := dbUpdateRental s rental_id
              ⟨some RentalStatus.completed.value, some return_readings_doc, some charges⟩ now
            if upd.1 then
              match findRentalById upd.2 rental_id with
              | some updated_rental_doc =>
                  Except.ok (⟨updated_rental_doc, "Vehicle returned successfully"⟩, upd.2)
              | none => Except.error "Rental not found after update"
            else Except.error "Failed to update rental"
      else Except.error "Agent not found"
    else Except.error "Rental must be in active status for return"

/-- `ExtendRentalRequest`. -/
structure ExtendRentalRequest where
  new_return_date : Int
  deriving DecidableEq, Repr

/-- `RentalService.extend_rental`: rental exists and is `active`, the
associated reservation exists, the new return date is strictly after the
current one, the extension window has no conflicting booking; then only
`{"return_date": new_return_date}` is written through
`DatabaseManager.update_reservation`. -/
def extend_rental (s : Store) (rental_id : String) (request : ExtendRentalRequest)
    (now : Int) : Except String (RentalDoc × Store) :=
  match findRentalById s rental_id with
  | none => Except.error "Rental not found"
  | some rental_doc =>
    if rental_doc.status = RentalStatus.active.value then
      match findReservationById s rental_doc.reservation_id with
      | none => Except.error "Associated reservation not found"
      | some reservation_doc =>
        let current_return_date := reservation_doc.return_date
        if request.new_return_date ≤ current_return_date then
          Except.error "new_return_date must be after current return date"
        else
          let has_conflict := ! checkRentalExtensionConflict s rental_doc.vehicle_id
            current_return_date request.new_return_date rental_doc.reservation_id
          if has_conflict then
            Except.error "Cannot extend rental: conflicting reservation"
          else
            let s1 := (dbUpdateReservation s rental_doc.reservation_id
              { ReservationUpdateData.empty with
                  return_date := some request.new_return_date } now).2
            match findRentalById s1 rental_id with
            | some updated_rental_doc => Except.ok (updated_rental_doc, s1)
            | none => Except.error "Rental not found after update"
    else Except.error "Can only extend active rentals"

/-! ## Reservation service (`src/services/reservation_service.py`) -/

/-- `UpdateReservationRequest` (`src/schemas/api/requests/reservations.py`):
every field optional, `none` meaning "leave unchanged". -/
structure UpdateReservationRequest where
  status : Option ReservationStatus
  vehicle_id : Option String
  insurance_tier_id : Option String
  pickup_branch_id : Option String
  return_branch_id : Option String
  pickup_date : Option Int
  return_date : Option Int
  add_on_ids : Option (List String)
  deriving DecidableEq, Repr

/-- `ReservationService._calculate_total_price`: validates that the
customer, vehicle, insurance tier and every requested add-on exist, snapshots
the add-ons, and prices the reservation with the strategy selected from the
customer's existing reservation count. -/
def serviceCalculateTotalPrice (s : Store) (customer_id vehicle_id insurance_tier_id : String)
    (add_on_ids : List String) (pickup_date return_date : Int) :
    Except String (ℚ × List AddOnSnapshotDoc × Int) :=
  if findCustomerById s customer_id then
    match findVehicleById s vehicle_id with
    | none => Except.error "Vehicle not found"
    | some vehicle_doc =>
      match findInsuranceTierById s insurance_tier_id with
      | none => Except.error "Insurance tier not found"
      | some insurance_doc =>
        let add_on_docs := findAddOnsByIds s add_on_ids
        if add_on_ids.all (fun i => add_on_docs.any (fun d => d.id == i)) then
          let add_on_documents : List AddOnSnapshotDoc :=
            add_on_docs.map (fun d => ⟨d.id, d.name, d.price_per_day⟩)
          let rental_days := calculate_rental_days pickup_date return_date
          let reservation_count := (findReservationsByCustomer s customer_id).length
          let strategy_type := determine_pricing_strategy reservation_count
          let addon_prices := add_on_documents.map (fun d => d.price_per_day)
          let total_price := calculate_total_price vehicle_doc.price_per_day
            insurance_doc.price_per_day addon_prices pickup_date return_date strategy_type
          Except.ok (total_price, add_on_documents, rental_days)
        else Except.error "Add-ons not found"
  else Except.error "Customer not found"

/-- `ReservationService.update_reservation`.  Returns `none` when the
reservation does not exist (the source returns `None`), raises on a
terminal current status (`completed`/`cancelled`) and on failed entity or
availability validation, recalculates the price when vehicle, insurance,
dates or add-ons change (auto-syncing `invoice.total_price`), and otherwise
applies the accumulated partial update. -/
def update_reservation (s : Store) (reservation_id : String)
    (request : UpdateReservationRequest) (now : Int) : Except String (Option Store) :=
  match findReservationById s reservation_id with
  | none => Except.ok none
  | some existing_reservation =>
    if existing_reservation.status = "completed" ∨ existing_reservation.status = "cancelled" then
      Except.error ("Cannot update reservation with status " ++ existing_reservation.status)
    else
      let u0 : ReservationUpdateData :=
        { ReservationUpdateData.empty with status := request.status.map (·.value) }
      let recalc0 := false
      let step1 : Except String (ReservationUpdateData × Bool) :=
        match request.vehicle_id with
        | none => Except.ok (u0, recalc0)
        | some vid =>
          match findVehicleById s vid with
          | none => Except.error "Vehicle not found"
          | some _ =>
            let pd := request.pickup_date.getD existing_reservation.pickup_date
            let rd := request.return_date.getD existing_reservation.return_date
            if checkVehicleAvailability s vid pd rd (some reservation_id) then
              Except.ok ({ u0 with vehicle_id := some vid }, true)
            else Except.error "Vehicle is not available"
      match step1 with
      | Except.error e => Except.error e
      | Except.ok (u1, recalc1) =>
        let step2 : Except String (ReservationUpdateData × Bool) :=
          match request.insurance_tier_id with
          | none => Except.ok (u1, recalc1)
          | some iid =>
            match findInsuranceTierById s iid with
            | none => Except.error "Insurance tier not found"
            | some _ => Except.ok ({ u1 with insurance_tier_id := some iid }, true)
        match step2 with
        | Except.error e => Except.error e
        | Except.ok (u2, recalc2) =>
          let step3 : Except String ReservationUpdateData :=
            match request.pickup_branch_id with
            | none => Except.ok u2
            | some bid =>
              if findBranchById s bid then
                Except.ok { u2 with pickup_branch_id := some bid }
              else Except.error "Pickup branch not found"
          match step3 with
          | Except.error e => Except.error e
          | Except.ok u3 =>
            let step4 : Except String ReservationUpdateData :=
              match request.return_branch_id with
              | none => Except.ok u3
              | some bid =>
                if findBranchById s bid then
                  Except.ok { u3 with return_branch_id := some bid }
                else Except.error "Return branch not found"
            match step4 with
            | Except.error e => Except.error e
            | Except.ok u4 =>
              let u5 := match request.pickup_date with
                | none => u4
                | some d => { u4 with pickup_date := some d }
              let recalc5 := recalc2 ∨ request.pickup_date.isSome
              let u6 := match request.return_date with
                | none => u5
                | some d => { u5 with return_date := some d }
              let recalc6 := recalc5 ∨ request.return_date.isSome
              let recalc7 := recalc6 ∨ request.add_on_ids.isSome
              let step8 : Except String ReservationUpdateData :=
                if recalc7 then
                  let final_vehicle_id := u6.vehicle_id.getD existing_reservation.vehicle_id
                  let final_insurance_id := u6.insurance_tier_id.getD existing_reservation.insurance_tier_id
                  let final_pickup_date := u6.pickup_date.getD existing_reservation.pickup_date
                  let final_return_date := u6.return_date.getD existing_reservation.return_date
                  let final_add_on_ids := match request.add_on_ids with
                    | some ids => ids
                    | none => existing_reservation.add_ons.map (fun a => a.id)
                  match serviceCalculateTotalPrice s existing_reservation.customer_id
                    final_vehicle_id final_insurance_id final_add_on_ids
                    final_pickup_date final_return_date with
                  | Except.error e => Except.error e
                  | Except.ok (total_price, add_on_documents, rental_days) =>
                    Except.ok { u6 with
                      total_price := some total_price
                      rental_days := some rental_days
                      add_ons := some add_on_documents
                      invoice_total_price := some total_price }
                else Except.ok u6
              match step8 with
              | Except.error e => Except.error e
              | Except.ok u8 =>
                if u8 = ReservationUpdateData.empty then
                  Except.ok (some s)
                else
                  let upd := dbUpdateReservation s reservation_id u8 now
                  if upd.1 then Except.ok (some upd.2)
                  else Except.ok none

/-! ## Spec-side predicate used for comparison

The availability rule as the spec words it, kept clearly separate from the
code-derived `checkVehicleAvailability` above. -/

/-- Modelled from the spec: a vehicle is unavailable iff there exists an
active booking (status Pending or Approved, the enumeration's values) for
the same vehicle whose inclusive date interval overlaps the requested one,
`exclude_reservation_id` excluded. -/
def specVehicleAvailable (s : Store) (vehicle_id : String)
    (pickup_date return_date : Int) (exclude_reservation_id : Option String) : Bool :=
  ! s.reservations.any (fun r =>
      r.vehicle_id == vehicle_id &&
      (r.status == ReservationStatus.pending.value ||
       r.status == ReservationStatus.approved.value) &&
      decide (r.pickup_date ≤ return_date) &&
      decide (r.return_date ≥ pickup_date) &&
      (match exclude_reservation_id with
       | some e => r.id != e
       | none => true))

/-- Discount rate per strategy: the literals `0.15`, `0.10` and no discount
that `calculate_total_price` applies. -/
def discountRate : PricingStrategyType → ℚ
  | .first_order => 15 / 100
  | .loyalty => 10 / 100
  | .daily => 0

/-! ## Concrete fixtures used by witnesses and counterexamples -/

/-- An approved reservation for vehicle `veh1` over days 0..3. -/
def sampleReservation : ReservationDoc :=
  ⟨"res1", "approved", "cust1", "veh1", "ins1", "br1", "br1", 0, 3, [],
   204, 3, ⟨"inv1", "pending", 0, 204⟩, 0, 0⟩

/-- A vehicle available for pickup. -/
def sampleVehicle : VehicleDoc := ⟨"veh1", "available", 45⟩

/-- Store holding one approved reservation, ready for pickup. -/
def pickupStore : Store :=
  ⟨[sampleReservation], [], [sampleVehicle], ["agent1"], ["cust1"],
   [⟨"ins1", 18⟩], ["br1"], []⟩

/-- A pickup request against `sampleReservation`. -/
def samplePickupRequest : PickupVehicleRequest :=
  ⟨"res1", "agent1", "tok-1", 100, 1, none⟩

/-- Store holding one overlapping approved reservation for `veh1`. -/
def approvedOverlapStore : Store :=
  ⟨[⟨"resA", "approved", "cust1", "veh1", "ins1", "br1", "br1", 0, 10, [],
     100, 10, ⟨"invA", "pending", 0, 100⟩, 0, 0⟩],
   [], [], [], [], [], [], []⟩

/-- An active rental on `veh1`, picked up at timestamp 0 with odometer 100. -/
def activeRental : RentalDoc :=
  ⟨"rent1", "active", "res1", "veh1", "cust1", "agent1", "tok-1",
   ⟨100, 1, 0⟩, none, none, 0, 0⟩

/-- A vehicle whose stored status is `picked_up`, as after a pickup. -/
def pickedUpVehicle : VehicleDoc := ⟨"veh1", "picked_up", 45⟩

/-- Store with an active rental whose vehicle is out with a customer. -/
def returnStore : Store :=
  ⟨[sampleReservation], [activeRental], [pickedUpVehicle], ["agent1"],
   ["cust1"], [], [], []⟩

/-- A return request for `activeRental` (odometer 150 ≥ 100, fuel 1/2,
zero damage). -/
def sampleReturnRequest : ReturnVehicleRequest :=
  ⟨"agent1", 150, 1 / 2, some 0, some 262800⟩

/-- A reservation whose stored status is the dedicated `picked_up` value. -/
def pickedUpReservation : ReservationDoc :=
  ⟨"res7", "picked_up", "cust1", "veh1", "ins1", "br1", "br1", 0, 3, [],
   204, 3, ⟨"inv7", "pending", 0, 204⟩, 0, 0⟩

/-- Store holding only `pickedUpReservation`. -/
def cancelStore : Store := ⟨[pickedUpReservation], [], [], [], [], [], [], []⟩

/-- An update request that only asks to set the status to Cancelled. -/
def cancelRequest : UpdateReservationRequest :=
  ⟨some ReservationStatus.cancelled, none, none, none, none, none, none, none⟩

/-- Reservation backing an active rental, return date day 3. -/
def extendReservation : ReservationDoc :=
  ⟨"res9", "completed", "cust1", "veh9", "ins1", "br1", "br1", 0, 3, [],
   204, 3, ⟨"inv9", "pending", 0, 204⟩, 0, 0⟩

/-- The active rental to be extended. -/
def rentalToExtend : RentalDoc :=
  ⟨"rent9", "active", "res9", "veh9", "cust1", "agent1", "tok-9",
   ⟨100, 1, 0⟩, none, none, 0, 0⟩

/-- Store for the extension scenario: no competing bookings. -/
def extendStore : Store :=
  ⟨[extendReservation], [rentalToExtend], [], [], [], [], [], []⟩

/-- The rental document `pickup_vehicle` builds on its creation path
(named here so proofs can exhibit it). -/
def pickupRentalDoc (request : PickupVehicleRequest) (reservation_doc : ReservationDoc)
    (rental_id : String) (now : Int) : RentalDoc :=
  ⟨rental_id, RentalStatus.active.value, request.reservation_id,
   reservation_doc.vehicle_id, reservation_doc.customer_id,
   request.agent_id, request.pickup_token,
   ⟨request.odometer_reading, request.fuel_level, request.pickup_timestamp.getD now⟩,
   none, none, now, now⟩

/-- The store `pickup_vehicle` produces on its creation path: the new rental
inserted, then the reservation's status set to completed. -/
def pickupResultStore (s : Store) (request : PickupVehicleRequest)
    (reservation_doc : ReservationDoc) (rental_id : String) (now : Int) : Store :=
  (dbUpdateReservation
    (createRental s (pickupRentalDoc request reservation_doc rental_id now))
    request.reservation_id
    { ReservationUpdateData.empty with
        status := some ReservationStatus.completed.value } now).2

/-! ## Helper lemmas -/

/-- Projection lemma: the base price of a computed charge document. -/
theorem calculateRentalCharges_base_price (pickup_readings : RentalReadingDoc)
    (pd rd : Int) (bp ro rf : ℚ) (rt : Int) (dmg : ℚ) :
    (calculateRentalCharges pickup_readings pd rd bp ro rf rt dmg).base_price = bp := rfl

/-- Projection lemma: the damage fee is the manual charge, passed through. -/
theorem calculateRentalCharges_damage_fee (pickup_readings : RentalReadingDoc)
    (pd rd : Int) (bp ro rf : ℚ) (rt : Int) (dmg : ℚ) :
    (calculateRentalCharges pickup_readings pd rd bp ro rf rt dmg).damage_fee = dmg := rfl

/-- Projection lemma: the computed late fee. -/
theorem calculateRentalCharges_late_fee (pickup_readings : RentalReadingDoc)
    (pd rd : Int) (bp ro rf : ℚ) (rt : Int) (dmg : ℚ) :
    (calculateRentalCharges pickup_readings pd rd bp ro rf rt dmg).late_fee
      = if graceEndDatetime pickup_readings.timestamp pd rd < rt then
          ((⌈((rt - graceEndDatetime pickup_readings.timestamp pd rd : Int) : ℚ) / 3600⌉ : Int) : ℚ)
            * LATE_FEE_PER_HOUR
        else 0 := rfl

/-- Projection lemma: the computed mileage overage fee. -/
theorem calculateRentalCharges_mileage_fee (pickup_readings : RentalReadingDoc)
    (pd rd : Int) (bp ro rf : ℚ) (rt : Int) (dmg : ℚ) :
    (calculateRentalCharges pickup_readings pd rd bp ro rf rt dmg).mileage_overage_fee
      = max 0 ((ro - pickup_readings.odometer)
          - (rentalDaysForCharges pd rd : ℚ) * DAILY_KM_ALLOWANCE) * OVERAGE_PER_KM := rfl

/-- Projection lemma: the computed fuel refill fee. -/
theorem calculateRentalCharges_fuel_fee (pickup_readings : RentalReadingDoc)
    (pd rd : Int) (bp ro rf : ℚ) (rt : Int) (dmg : ℚ) :
    (calculateRentalCharges pickup_readings pd rd bp ro rf rt dmg).fuel_refill_fee
      = max 0 ((pickup_readings.fuel_level - rf) * FUEL_REFILL_RATE) := rfl

/-- Searching a concatenation when the left part has no hit. -/
theorem find?_append_of_none {α : Type} (p : α → Bool) (l1 l2 : List α)
    (h : l1.find? p = none) : (l1 ++ l2).find? p = l2.find? p := by
  induction l1 with
  | nil => simp
  | cons a t ih =>
    cases hpa : p a with
    | true =>
      rw [List.find?_cons_of_pos _ hpa] at h
      exact absurd h (by simp)
    | false =>
      rw [List.find?_cons_of_neg _ (by simp [hpa])] at h
      rw [List.cons_append, List.find?_cons_of_neg _ (by simp [hpa])]
      exact ih h

/-- An update that targets exactly the documents a predicate selects moves
`find?` through `map`, provided the update preserves the predicate. -/
theorem find?_map_update {α : Type} (p : α → Bool) (g : α → α)
    (hg : ∀ a, p a = true → p (g a) = true) (l : List α) (a : α)
    (h : l.find? p = some a) :
    (l.map (fun x => if p x then g x else x)).find? p = some (g a) := by
  induction l with
  | nil => simp at h
  | cons b t ih =>
    cases hpb : p b with
    | true =>
      rw [List.find?_cons_of_pos _ hpb] at h
      injection h with h
      subst h
      rw [List.map_cons, if_pos hpb, List.find?_cons_of_pos _ (hg b hpb)]
    | false =>
      rw [List.find?_cons_of_neg _ (by simp [hpb])] at h
      rw [List.map_cons, if_neg (by simp [hpb]), List.find?_cons_of_neg _ (by simp [hpb])]
      exact ih h

/-! ## Claim theorems -/

/-- C3: with graceEnd = pickup timestamp + rentalDays days + 1 hour, the
late fee is 0 when the return timestamp is at or before graceEnd, otherwise
it is ceil((return − graceEnd) / 1 hour) × 10.0; and a return exactly
61 minutes (3660 s) past graceEnd costs 20.0. -/
theorem late_fee_grace_rule (pickup_readings : RentalReadingDoc) (pd rd : Int)
    (bp ro rf : ℚ) (rt : Int) (dmg : ℚ) :
    (rt ≤ graceEndDatetime pickup_readings.timestamp pd rd →
      (calculateRentalCharges pickup_readings pd rd bp ro rf rt dmg).late_fee = 0) ∧
    (graceEndDatetime pickup_readings.timestamp pd rd < rt →
      (calculateRentalCharges pickup_readings pd rd bp ro rf rt dmg).late_fee
        = ((⌈((rt - graceEndDatetime pickup_readings.timestamp pd rd : Int) : ℚ) / 3600⌉ : Int) : ℚ)
            * 10) ∧
    (rt = graceEndDatetime pickup_readings.timestamp pd rd + 3660 →
      (calculateRentalCharges pickup_readings pd rd bp ro rf rt dmg).late_fee = 20) := by
  rw [calculateRentalCharges_late_fee]
  refine ⟨?_, ?_, ?_⟩
  · intro h
    rw [if_neg (not_lt.mpr h)]
  · intro h
    rw [if_pos h, LATE_FEE_PER_HOUR]
  · intro h
    subst h
    rw [if_pos (by omega)]
    have hceil : (⌈((graceEndDatetime pickup_readings.timestamp pd rd + 3660
        - graceEndDatetime pickup_readings.timestamp pd rd : Int) : ℚ) / 3600⌉ : Int) = 2 := by
      have hsub : (graceEndDatetime pickup_readings.timestamp pd rd + 3660
          - graceEndDatetime pickup_readings.timestamp pd rd : Int) = 3660 := by omega
      rw [hsub, Int.ceil_eq_iff]
      norm_num
    rw [hceil, LATE_FEE_PER_HOUR]
    norm_num

/-- C3 witness: concrete instance, return exactly 3660 seconds past grace
for a 3-day booking picked up at timestamp 0. -/
theorem late_fee_grace_rule_witness :
    (calculateRentalCharges ⟨100, 1, 0⟩ 0 3 204 180 1 (graceEndDatetime 0 0 3 + 3660) 0).late_fee
      = 20 :=
  (late_fee_grace_rule ⟨100, 1, 0⟩ 0 3 204 180 1 (graceEndDatetime 0 0 3 + 3660) 0).2.2 rfl

/-- C4 counterexample: with pickup day 1 and return day 0 the charge
calculation's rental-day count is −1, not max(1, 0 − 1) = 1, so the count
can be less than 1. -/
theorem rentalDaysForCharges_not_clamped :
    rentalDaysForCharges 1 0 = -1 ∧
    rentalDaysForCharges 1 0 ≠ max 1 ((0 : Int) - 1) ∧
    rentalDaysForCharges 1 0 < 1 := by decide

/-- C4 (amended): the rental-day count used by the charge calculation
equals max(1, return − pickup) whenever pickup ≤ return — in particular it
is 1 for same-day rentals — but when pickup is after return it equals the
negative day difference (the code only bumps the exactly-zero case). -/
theorem rentalDaysForCharges_rule :
    (∀ pd rd : Int, pd ≤ rd → rentalDaysForCharges pd rd = max 1 (rd - pd)) ∧
    (∀ pd rd : Int, rd < pd → rentalDaysForCharges pd rd = rd - pd) := by
  constructor
  · intro pd rd h
    unfold rentalDaysForCharges
    by_cases h0 : rd - pd = 0
    · rw [if_pos h0, h0]
      decide
    · rw [if_neg h0]
      have h1 : (1 : Int) ≤ rd - pd := by omega
      exact (max_eq_right h1).symm
  · intro pd rd h
    unfold rentalDaysForCharges
    rw [if_neg (by omega)]

/-- C4 witness: same-day rental counts as 1 day, and reversed dates yield
the negative difference. -/
theorem rentalDaysForCharges_rule_witness :
    rentalDaysForCharges 5 5 = max 1 ((5 : Int) - 5) ∧
    rentalDaysForCharges 3 1 = (1 : Int) - 3 :=
  ⟨rentalDaysForCharges_rule.1 5 5 (by decide),
   rentalDaysForCharges_rule.2 3 1 (by decide)⟩

/-- C8: strategy selection returns FirstOrder for count 0, Loyalty when the
count is nonzero and count+1 is a multiple of 5, Daily otherwise, and the
total price applies the rates 0.15, 0.10 and 0.0 respectively to the base
price. -/
theorem strategy_selection_and_discount (reservation_count : Nat) :
    (reservation_count = 0 →
      determine_pricing_strategy reservation_count = PricingStrategyType.first_order) ∧
    (reservation_count ≠ 0 → (reservation_count + 1) % 5 = 0 →
      determine_pricing_strategy reservation_count = PricingStrategyType.loyalty) ∧
    (reservation_count ≠ 0 → (reservation_count + 1) % 5 ≠ 0 →
      determine_pricing_strategy reservation_count = PricingStrategyType.daily) ∧
    (∀ (v i : ℚ) (addons : List ℚ) (pd rd : Int) (st : PricingStrategyType),
      calculate_total_price v i addons pd rd st
        = calculate_base_price v i addons (calculate_rental_days pd rd)
            * (1 - discountRate st)) := by
  refine ⟨?_, ?_, ?_, ?_⟩
  · intro h
    simp [determine_pricing_strategy, h]
  · intro h1 h2
    simp [determine_pricing_strategy, h1, h2]
  · intro h1 h2
    simp [determine_pricing_strategy, h1, h2]
  · intro v i addons pd rd st
    cases st <;>
      simp [calculate_total_price, apply_discount, discountRate] <;> ring

/-- C8 witness: count 0 selects FirstOrder, count 4 selects Loyalty, count 1
selects Daily, and the 15% rate is applied to the base price (the spec's
Scenario 1 figures: (45+18+5)×3 = 204, 15% off = 173.40). -/
theorem strategy_selection_and_discount_witness :
    determine_pricing_strategy 0 = PricingStrategyType.first_order ∧
    determine_pricing_strategy 4 = PricingStrategyType.loyalty ∧
    determine_pricing_strategy 1 = PricingStrategyType.daily ∧
    calculate_total_price 45 18 [5] 0 3 (determine_pricing_strategy 0)
      = calculate_base_price 45 18 [5] (calculate_rental_days 0 3)
          * (1 - discountRate (determine_pricing_strategy 0)) :=
  ⟨(strategy_selection_and_discount 0).1 rfl,
   (strategy_selection_and_discount 4).2.1 (by decide) (by decide),
   (strategy_selection_and_discount 1).2.2.1 (by decide) (by decide),
   (strategy_selection_and_discount 0).2.2.2 45 18 [5] 0 3 _⟩

/-- C10: every charge document the calculation produces (with the
non-negative manual damage charge the request validator guarantees) has all
four fee components non-negative, its total is the base price plus the four
fees, and hence the total is at least the base price. -/
theorem charges_total_at_least_base (pickup_readings : RentalReadingDoc)
    (pd rd : Int) (bp ro rf : ℚ) (rt : Int) (dmg : ℚ) (hdmg : 0 ≤ dmg) :
    0 ≤ (calculateRentalCharges pickup_readings pd rd bp ro rf rt dmg).late_fee ∧
    0 ≤ (calculateRentalCharges pickup_readings pd rd bp ro rf rt dmg).mileage_overage_fee ∧
    0 ≤ (calculateRentalCharges pickup_readings pd rd bp ro rf rt dmg).fuel_refill_fee ∧
    0 ≤ (calculateRentalCharges pickup_readings pd rd bp ro rf rt dmg).damage_fee ∧
    (calculateRentalCharges pickup_readings pd rd bp ro rf rt dmg).total
      = (calculateRentalCharges pickup_readings pd rd bp ro rf rt dmg).base_price
        + (calculateRentalCharges pickup_readings pd rd bp ro rf rt dmg).late_fee
        + (calculateRentalCharges pickup_readings pd rd bp ro rf rt dmg).mileage_overage_fee
        + (calculateRentalCharges pickup_readings pd rd bp ro rf rt dmg).fuel_refill_fee
        + (calculateRentalCharges pickup_readings pd rd bp ro rf rt dmg).damage_fee ∧
    (calculateRentalCharges pickup_readings pd rd bp ro rf rt dmg).base_price
      ≤ (calculateRentalCharges pickup_readings pd rd bp ro rf rt dmg).total := by
  have hl : 0 ≤ (calculateRentalCharges pickup_readings pd rd bp ro rf rt dmg).late_fee := by
    rw [calculateRentalCharges_late_fee]
    split
    · next h =>
        have h1 : (0 : ℚ)
            ≤ ((rt - graceEndDatetime pickup_readings.timestamp pd rd : Int) : ℚ) / 3600 := by
          apply div_nonneg _ (by norm_num)
          exact_mod_cast Int.sub_nonneg.mpr (le_of_lt h)
        have h2 := Int.ceil_nonneg h1
        have h3 : (0 : ℚ) ≤ ((⌈((rt - graceEndDatetime pickup_readings.timestamp pd rd : Int) : ℚ)
            / 3600⌉ : Int) : ℚ) := by exact_mod_cast h2
        exact mul_nonneg h3 (by rw [LATE_FEE_PER_HOUR]; norm_num)
    · exact le_refl 0
  have hm : 0 ≤ (calculateRentalCharges pickup_readings pd rd bp ro rf rt dmg).mileage_overage_fee := by
    rw [calculateRentalCharges_mileage_fee]
    exact mul_nonneg (le_max_left 0 _) (by rw [OVERAGE_PER_KM]; norm_num)
  have hf : 0 ≤ (calculateRentalCharges pickup_readings pd rd bp ro rf rt dmg).fuel_refill_fee := by
    rw [calculateRentalCharges_fuel_fee]
    exact le_max_left 0 _
  have hd : 0 ≤ (calculateRentalCharges pickup_readings pd rd bp ro rf rt dmg).damage_fee := by
    rw [calculateRentalCharges_damage_fee]
    exact hdmg
  have ht : (calculateRentalCharges pickup_readings pd rd bp ro rf rt dmg).total
      = (calculateRentalCharges pickup_readings pd rd bp ro rf rt dmg).base_price
        + (calculateRentalCharges pickup_readings pd rd bp ro rf rt dmg).late_fee
        + (calculateRentalCharges pickup_readings pd rd bp ro rf rt dmg).mileage_overage_fee
        + (calculateRentalCharges pickup_readings pd rd bp ro rf rt dmg).fuel_refill_fee
        + (calculateRentalCharges pickup_readings pd rd bp ro rf rt dmg).damage_fee := rfl
  refine ⟨hl, hm, hf, hd, ht, ?_⟩
  rw [ht]
  linarith

/-- C10 witness: concrete charge document for a punctual, in-allowance
return with zero damage. -/
theorem charges_total_at_least_base_witness :
    (0 : ℚ) ≤ 0 ∧
    (calculateRentalCharges ⟨100, 1, 0⟩ 0 3 204 150 1 262800 0).base_price
      ≤ (calculateRentalCharges ⟨100, 1, 0⟩ 0 3 204 150 1 262800 0).total :=
  ⟨le_refl 0,
   (charges_total_at_least_base ⟨100, 1, 0⟩ 0 3 204 150 1 262800 0 (le_refl 0)).2.2.2.2.2⟩

/-- C1: the availability query's status filter uses the literal strings
"pending" and "confirmed", but "confirmed" is not a value of the status
enumeration, so an overlapping reservation in the Approved status does not
block availability: on a store whose only reservation is approved for
vehicle `veh1` over days 0..10, the code reports the vehicle available for
days 5..6 while the specified rule (active ⇔ Pending or Approved) reports
it unavailable. -/
theorem availability_ignores_approved :
    checkVehicleAvailability approvedOverlapStore "veh1" 5 6 none = true ∧
    specVehicleAvailable approvedOverlapStore "veh1" 5 6 none = false ∧
    (∀ st : ReservationStatus, st.value ≠ "confirmed") := by
  refine ⟨by decide, by decide, ?_⟩
  intro st
  cases st <;> decide

/-- C5 counterexample: a successful pickup stores the reservation status
"completed", which is not the dedicated picked_up value of the status
enumeration. -/
theorem pickup_stores_completed_not_picked_up :
    ((pickup_vehicle pickupStore samplePickupRequest "rent1" 0).toOption.map
        (fun pr => (findReservationById pr.2 "res1").map (fun q => q.status)))
      = some (some ReservationStatus.completed.value) ∧
    ReservationStatus.completed.value ≠ ReservationStatus.picked_up.value := by
  decide

/-- C5 (amended): every successful pickup of an approved reservation sets
that reservation's stored status to the completed value of the status
enumeration (the terminal "completed" string), not to picked_up. -/
theorem pickup_sets_reservation_completed (s : Store) (request : PickupVehicleRequest)
    (rental_id : String) (now : Int)
    (reservation_doc : ReservationDoc) (vehicle_doc : VehicleDoc)
    (h_tok : findRentalByPickupToken s request.pickup_token = none)
    (h_res : findReservationById s request.reservation_id = some reservation_doc)
    (h_status : reservation_doc.status = ReservationStatus.approved.value)
    (h_norental : findRentalByReservation s request.reservation_id = none)
    (h_agent : findEmployeeById s request.agent_id = true)
    (h_veh : findVehicleById s reservation_doc.vehicle_id = some vehicle_doc)
    (h_maint : ¬ vehicle_doc.status = "maintenance_due") :
    ∃ res s1, pickup_vehicle s request rental_id now = Except.ok (res, s1) ∧
      ∀ q ∈ s1.reservations, q.id = request.reservation_id →
        q.status = ReservationStatus.completed.value := by
  refine ⟨⟨pickupRentalDoc request reservation_doc rental_id now,
      "Vehicle picked up successfully"⟩,
    pickupResultStore s request reservation_doc rental_id now, ?_, ?_⟩
  · simp only [pickup_vehicle, h_tok, h_res, h_status, h_norental, h_agent, h_veh,
      if_true, eq_self_iff_true, ite_true]
    rw [if_neg h_maint]
    rfl
  · intro q hq hid
    simp only [pickupResultStore, createRental, dbUpdateReservation, List.mem_map] at hq
    obtain ⟨r, _, rfl⟩ := hq
    by_cases hr : (r.id == request.reservation_id) = true
    · rw [if_pos hr]
      rfl
    · rw [if_neg hr] at hid ⊢
      exact absurd (beq_iff_eq.mpr hid) hr

/-- C5 witness: the amended rule evaluated on the concrete pickup fixture. -/
theorem pickup_sets_reservation_completed_witness :
    ∃ res s1, pickup_vehicle pickupStore samplePickupRequest "rent1" 0 = Except.ok (res, s1) ∧
      ∀ q ∈ s1.reservations, q.id = samplePickupRequest.reservation_id →
        q.status = ReservationStatus.completed.value :=
  pickup_sets_reservation_completed pickupStore samplePickupRequest "rent1" 0
    sampleReservation sampleVehicle (by decide) (by decide) (by decide)
    (by decide) (by decide) (by decide) (by decide)

/-- C6: on a store whose rented vehicle has stored status "picked_up", the
return operation completes successfully yet the vehicle's status is still
"picked_up", not the available value — the vehicle-status write reads the
non-existent `request.vehicle_id` field and the resulting error is caught
and only logged. -/
theorem return_leaves_vehicle_unavailable :
    ((return_vehicle returnStore "rent1" sampleReturnRequest 1000).toOption.map
        (fun pr => (findVehicleById pr.2 "veh1").map (fun v => v.status)))
      = some (some "picked_up") ∧
    "picked_up" ≠ VehicleStatus.available.value := by
  decide

/-- C7: on a store whose only reservation is in the picked_up status, an
update request that sets the status to Cancelled succeeds and stores
"cancelled" — the service only rejects updates from the completed and
cancelled statuses, so cancellation from PickedUp is not blocked, contrary
to the specified state machine (and to the repository's own cancellation
tests). -/
theorem cancel_from_picked_up_succeeds :
    (findReservationById cancelStore "res7").map (fun q => q.status)
      = some ReservationStatus.picked_up.value ∧
    ((update_reservation cancelStore "res7" cancelRequest 5).toOption.map
        (fun os => os.map (fun st => (findReservationById st "res7").map (fun q => q.status))))
      = some (some (some ReservationStatus.cancelled.value)) := by
  decide

/-- C9 counterexample: a successful extension does not change only the
reservation's return date — the bookkeeping `updated_at` stamp is refreshed
as well (here from 0 to 7), so not every field other than return_date is
unchanged. -/
theorem extend_changes_updated_at :
    ((extend_rental extendStore "rent9" ⟨5⟩ 7).toOption.map
        (fun pr => (findReservationById pr.2 "res9").map (fun q => q.updated_at)))
      = some (some 7) ∧
    (findReservationById extendStore "res9").map (fun q => q.updated_at)
      = some 0 := by
  decide

/-- C2: for any store and pickup request whose creation-path validations
pass, the first pickup creates a rental, and a second pickup with the same
pickup token (same reservation, possibly a different fresh id and clock
reading) returns that very rental through the idempotent no-op path — same
identity, unchanged store, idempotent message — and afterwards exactly one
rental document carries that pickup token. -/
theorem pickup_vehicle_idempotent (s : Store) (request : PickupVehicleRequest)
    (rental_id rental_id2 : String) (now now2 : Int)
    (reservation_doc : ReservationDoc) (vehicle_doc : VehicleDoc)
    (h_tok : findRentalByPickupToken s request.pickup_token = none)
    (h_res : findReservationById s request.reservation_id = some reservation_doc)
    (h_status : reservation_doc.status = ReservationStatus.approved.value)
    (h_norental : findRentalByReservation s request.reservation_id = none)
    (h_agent : findEmployeeById s request.agent_id = true)
    (h_veh : findVehicleById s reservation_doc.vehicle_id = some vehicle_doc)
    (h_maint : ¬ vehicle_doc.status = "maintenance_due") :
    ∃ r1 s1,
      pickup_vehicle s request rental_id now
        = Except.ok (⟨r1, "Vehicle picked up successfully"⟩, s1) ∧
      pickup_vehicle s1 request rental_id2 now2
        = Except.ok (⟨r1, "Vehicle already picked up (idempotent operation)"⟩, s1) ∧
      (s1.rentals.filter (fun r => r.pickup_token == request.pickup_token)).length = 1 := by
  have h_tok' : s.rentals.find? (fun r => r.pickup_token == request.pickup_token) = none :=
    h_tok
  refine ⟨pickupRentalDoc request reservation_doc rental_id now,
    pickupResultStore s request reservation_doc rental_id now, ?_, ?_, ?_⟩
  · simp only [pickup_vehicle, h_tok, h_res, h_status, h_norental, h_agent, h_veh,
      if_true, eq_self_iff_true, ite_true]
    rw [if_neg h_maint]
    rfl
  · have h_rentals : (pickupResultStore s request reservation_doc rental_id now).rentals
        = s.rentals ++ [pickupRentalDoc request reservation_doc rental_id now] := rfl
    have h_find : findRentalByPickupToken
        (pickupResultStore s request reservation_doc rental_id now) request.pickup_token
        = some (pickupRentalDoc request reservation_doc rental_id now) := by
      show (pickupResultStore s request reservation_doc rental_id now).rentals.find?
        (fun r => r.pickup_token == request.pickup_token) = _
      rw [h_rentals, find?_append_of_none _ _ _ h_tok']
      simp [pickupRentalDoc]
    simp only [pickup_vehicle, h_find]
  · have h_rentals : (pickupResultStore s request reservation_doc rental_id now).rentals
        = s.rentals ++ [pickupRentalDoc request reservation_doc rental_id now] := rfl
    rw [h_rentals, List.filter_append]
    have h_nil : s.rentals.filter (fun r => r.pickup_token == request.pickup_token) = [] := by
      rw [List.filter_eq_nil_iff]
      intro r hr
      exact List.find?_eq_none.mp h_tok' r hr
    rw [h_nil]
    simp [pickupRentalDoc]

/-- C2 witness: the idempotency property evaluated on the concrete pickup
fixture (two calls with token "tok-1"). -/
theorem pickup_vehicle_idempotent_witness :
    ∃ r1 s1,
      pickup_vehicle pickupStore samplePickupRequest "rent1" 0
        = Except.ok (⟨r1, "Vehicle picked up successfully"⟩, s1) ∧
      pickup_vehicle s1 samplePickupRequest "rent2" 9
        = Except.ok (⟨r1, "Vehicle already picked up (idempotent operation)"⟩, s1) ∧
      (s1.rentals.filter (fun r => r.pickup_token == samplePickupRequest.pickup_token)).length
        = 1 :=
  pickup_vehicle_idempotent pickupStore samplePickupRequest "rent1" "rent2" 0 9
    sampleReservation sampleVehicle (by decide) (by decide) (by decide)
    (by decide) (by decide) (by decide) (by decide)

/-- C9 (amended): a successful extension of an active rental updates only
the associated reservation's return_date together with its bookkeeping
updated_at stamp; total_price, rental_days, the embedded invoice (hence
invoice.total_price) and every other field are unchanged — no price
recomputation for the extended tail — and no other document is touched. -/
theorem extend_rental_frame (s : Store) (rental_id : String) (request : ExtendRentalRequest)
    (now : Int) (rental_doc : RentalDoc) (reservation_doc : ReservationDoc)
    (h_rent : findRentalById s rental_id = some rental_doc)
    (h_status : rental_doc.status = RentalStatus.active.value)
    (h_resv : findReservationById s rental_doc.reservation_id = some reservation_doc)
    (h_after : reservation_doc.return_date < request.new_return_date)
    (h_noconf : checkRentalExtensionConflict s rental_doc.vehicle_id
      reservation_doc.return_date request.new_return_date rental_doc.reservation_id = true) :
    ∃ s1, extend_rental s rental_id request now = Except.ok (rental_doc, s1) ∧
      s1.rentals = s.rentals ∧
      s1.vehicles = s.vehicles ∧
      findReservationById s1 rental_doc.reservation_id
        = some { reservation_doc with
            return_date := request.new_return_date, updated_at := now } ∧
      (∀ q ∈ s.reservations, ¬ q.id = rental_doc.reservation_id → q ∈ s1.reservations) := by
  refine ⟨(dbUpdateReservation s rental_doc.reservation_id
    { ReservationUpdateData.empty with
        return_date := some request.new_return_date } now).2, ?_, rfl, rfl, ?_, ?_⟩
  · have h_rent1 : findRentalById (dbUpdateReservation s rental_doc.reservation_id
        { ReservationUpdateData.empty with
            return_date := some request.new_return_date } now).2 rental_id
        = some rental_doc := h_rent
    simp only [extend_rental, h_rent, h_status, h_resv, if_true, eq_self_iff_true, ite_true]
    rw [if_neg (not_le.mpr h_after), h_noconf]
    simp only [Bool.not_true, Bool.false_eq_true, if_false, ite_false, h_rent1]
  · have h_resv' : s.reservations.find?
        (fun r => r.id == rental_doc.reservation_id) = some reservation_doc := h_resv
    have := find?_map_update (fun r => r.id == rental_doc.reservation_id)
      (applyReservationUpdate
        { ReservationUpdateData.empty with
            return_date := some request.new_return_date } now)
      (fun a ha => ha) s.reservations reservation_doc h_resv'
    exact this
  · intro q hq hne
    have hfq : (q.id == rental_doc.reservation_id) = false := by
      simp [hne]
    show q ∈ s.reservations.map (fun r =>
      if r.id == rental_doc.reservation_id then
        applyReservationUpdate
          { ReservationUpdateData.empty with
              return_date := some request.new_return_date } now r
      else r)
    refine List.mem_map.mpr ⟨q, hq, ?_⟩
    rw [hfq]
    simp

/-- C9 witness: the frame property evaluated on the concrete extension
fixture (return date 3 extended to 5 at clock reading 7). -/
theorem extend_rental_frame_witness :
    ∃ s1, extend_rental extendStore "rent9" ⟨5⟩ 7 = Except.ok (rentalToExtend, s1) ∧
      s1.rentals = extendStore.rentals ∧
      s1.vehicles = extendStore.vehicles ∧
      findReservationById s1 rentalToExtend.reservation_id
        = some { extendReservation with return_date := 5, updated_at := 7 } ∧
      (∀ q ∈ extendStore.reservations, ¬ q.id = rentalToExtend.reservation_id →
        q ∈ s1.reservations) :=
  extend_rental_frame extendStore "rent9" ⟨5⟩ 7 rentalToExtend extendReservation
    (by decide) (by decide) (by decide) (by decide) (by decide)

end CRFMS
